import Mathlib

/-! Shallow embedding of the dspyce repository core: the DSpaceObject metadata
model (dspyce/DSpaceObject.py), the Item subtype (Item.py) and the bitstream
subsystem (dspyce/bitstreams/models.py, dspyce/bitstreams/IIIFBitstream.py).
Python strings that may also be None are modelled as Option String, with
none standing for None and some "" for the empty string. External
collaborators (filesystem, network, image decoding) are passed in as explicit
values or state, following the collaborator contracts of the specification. -/

namespace Dspyce

/-- A single metadata value, as in dspyce/metadata: a text value plus an
optional language. -/
structure MetaDataValue where
  value : String
  language : Option String := none
deriving DecidableEq, Repr

/-- Modelled from the spec: the MetaData mapping class of
dspyce/metadata/models.py is not part of src/. Per the spec it is an ordered
mapping from a three-part field identifier to an ordered sequence of
MetaDataValue, with field order being declaration order, and a field present
only while it has at least one value. -/
abbrev MetaData : Type := List (String × List MetaDataValue)

/-- Modelled from the spec: dictionary-style lookup, none when the field is
absent (the Python dict.get default). -/
def MetaData.get (m : MetaData) (tag : String) : Option (List MetaDataValue) :=
  match m with
  | [] => none
  | (t, vs) :: rest => if t = tag then some vs else MetaData.get rest tag

/-- Modelled from the spec: assignment of a whole value list to a field, as in
self.metadata[tag] = md with md a list; replaces in place when the field is
present, appends the field at the end otherwise (Python dict assignment
order). -/
def MetaData.setValues (m : MetaData) (tag : String) (vs : List MetaDataValue) :
    MetaData :=
  match m with
  | [] => [(tag, vs)]
  | (t, w) :: rest =>
      if t = tag then (t, vs) :: rest else (t, w) :: MetaData.setValues rest tag vs

/-- Modelled from the spec: assignment of a single MetaDataValue, as in
self.metadata[tag] = MetaDataValue(value, language); per spec section 4.1 the
set operation appends the value to the field sequence, creating the field if
absent. -/
def MetaData.appendValue (m : MetaData) (tag : String) (v : MetaDataValue) :
    MetaData :=
  MetaData.setValues m tag (((MetaData.get m tag).getD []) ++ [v])

/-- A statistics-report value: the Python runtime distinction between dict,
list and any other (scalar) value that add_statistic_report inspects with
isinstance. -/
inductive RVal where
  | dict (entries : List (String × RVal))
  | arr (items : List RVal)
  | scalar (s : String)

/-- The isinstance(x, dict) test used by add_statistic_report. -/
def RVal.isDict : RVal → Bool
  | .dict _ => true
  | _ => false

/-- The branch self.statistic_reports[k] + [r[k]] if isinstance(..., list)
else [self.statistic_reports[k], r[k]] of add_statistic_report. -/
def RVal.accumulate (old v : RVal) : RVal :=
  match old with
  | .arr l => .arr (l ++ [v])
  | _ => .arr [old, v]

/-- Ordered-dictionary lookup for the statistics mapping. -/
def alookup (k : String) : List (String × RVal) → Option RVal
  | [] => none
  | (k2, v) :: rest => if k2 = k then some v else alookup k rest

/-- Ordered-dictionary assignment for the statistics mapping: updates in place
when the key is present, appends the key at the end otherwise (Python dict
insertion order). -/
def aset (k : String) (v : RVal) : List (String × RVal) → List (String × RVal)
  | [] => [(k, v)]
  | (k2, w) :: rest =>
      if k2 = k then (k2, v) :: rest else (k2, w) :: aset k v rest

/-- One key of one report, merged as in the body of the loop of
DSpaceObject.add_statistic_report (DSpaceObject.py lines 184 to 194). -/
def mergeReportKey (stats : List (String × RVal)) (k : String) (v : RVal) :
    List (String × RVal) :=
  match alookup k stats with
  | none => aset k v stats
  | some old => if v.isDict then aset k (RVal.accumulate old v) stats else aset k v stats

/-- The state of a DSpaceObject (DSpaceObject.py). The show attribute of the
source is only a type hint and never assigned, hence omitted. -/
structure DSpaceObject where
  uuid : Option String
  handle : Option String
  name : Option String
  metadata : MetaData
  statistic_reports : List (String × RVal)

/-- DSpaceObject.__init__: stores identity fields, fresh empty metadata and an
empty statistics mapping. -/
def DSpaceObject.init (uuid handle name : Option String) : DSpaceObject :=
  { uuid := uuid, handle := handle, name := name, metadata := [],
    statistic_reports := [] }

/-- DSpaceObject.add_metadata: self.metadata[tag] = MetaDataValue(value,
language). -/
def DSpaceObject.add_metadata (o : DSpaceObject) (tag value : String)
    (language : Option String) : DSpaceObject :=
  { o with metadata := MetaData.appendValue o.metadata tag { value := value, language := language } }

/-- DSpaceObject.get_metadata: the value list of the tag, empty when the tag
is absent. -/
def DSpaceObject.get_metadata (o : DSpaceObject) (tag : String) :
    List MetaDataValue :=
  (MetaData.get o.metadata tag).getD []

/-- DSpaceObject.get_metadata_values: the raw values, or None when the list is
empty. -/
def DSpaceObject.get_metadata_values (o : DSpaceObject) (tag : String) :
    Option (List String) :=
  match o.get_metadata tag with
  | [] => none
  | l => some (l.map (fun v => v.value))

/-- DSpaceObject.get_first_metadata_value: first raw value or None. -/
def DSpaceObject.get_first_metadata_value (o : DSpaceObject) (tag : String) :
    Option String :=
  match o.get_metadata_values tag with
  | some (v :: _) => some v
  | _ => none

/-- The two raise sites of DSpaceObject.move_metadata, plus the IndexError
that list.pop itself raises when the (possibly negative) from index is out of
range after both checks passed. positionOutOfRange is the KeyError of line 83,
invalidTargetPosition the IndexError of line 86. -/
inductive MoveErr where
  | positionOutOfRange
  | invalidTargetPosition
  | popIndexError
deriving DecidableEq, Repr

/-- Python list.pop(i): a negative index counts from the end; out of range
raises IndexError (modelled as none). -/
def pyPop {α : Type} (l : List α) (i : ℤ) : Option (α × List α) :=
  let j : ℤ := if i < 0 then i + l.length else i
  if h : 0 ≤ j ∧ j < (l.length : ℤ) then
    some (l.get ⟨j.toNat, by omega⟩, l.take j.toNat ++ l.drop (j.toNat + 1))
  else
    none

/-- The effective boundary of the Python slices md[:t] and md[t:] over a list
of length m: negative t counts from the end and clamps at 0; List.take and
List.drop clamp at the length exactly like Python slices do. -/
def pyCut (m : ℕ) (t : ℤ) : ℕ :=
  if t < 0 then (t + m).toNat else t.toNat

/-- The list-level core of DSpaceObject.move_metadata (lines 81 to 89): the
two range checks against the original length, then md.pop(from_position),
then md[:to_position] + [value] + md[to_position:]. -/
def moveList (md : List MetaDataValue) (from_position to_position : ℤ) :
    Except MoveErr (List MetaDataValue) :=
  if md.length = 0 ∨ (md.length : ℤ) ≤ from_position then
    .error .positionOutOfRange
  else if (md.length : ℤ) ≤ to_position ∨ to_position ≤ -(md.length : ℤ) then
    .error .invalidTargetPosition
  else
    match pyPop md from_position with
    | none => .error .popIndexError
    | some (value, rest) =>
        .ok (rest.take (pyCut rest.length to_position) ++ [value] ++
          rest.drop (pyCut rest.length to_position))

/-- DSpaceObject.move_metadata: fetches the value list of the tag, moves
within it and assigns the resulting list back to the store. -/
def DSpaceObject.move_metadata (o : DSpaceObject) (tag : String)
    (from_position to_position : ℤ) : Except MoveErr DSpaceObject :=
  (moveList (o.get_metadata tag) from_position to_position).map
    (fun md => { o with metadata := MetaData.setValues o.metadata tag md })

/-- Python exception classes raised by the embedded operations. -/
inductive PyErr where
  | attributeError
  | typeError
  | valueError
  | fileExistsError
deriving DecidableEq, Repr

/-- DSpaceObject.__eq__ (lines 110 to 113): raises ValueError only when uuid
and handle are the empty string on both sides; otherwise compares uuids when
the left uuid differs from the empty string, handles otherwise. -/
def DSpaceObject.eq (a b : DSpaceObject) : Except PyErr Bool :=
  if a.uuid = some "" ∧ b.uuid = some "" ∧ a.handle = some "" ∧ b.handle = some "" then
    .error .valueError
  else
    .ok (if a.uuid ≠ some "" then decide (a.uuid = b.uuid) else decide (a.handle = b.handle))

/-- DSpaceObject.get_identifier (lines 98 to 108): uuid when it differs from
the empty string (so a None uuid is returned as None), else handle when it
differs from the empty string, else None. -/
def DSpaceObject.get_identifier (o : DSpaceObject) : Option String :=
  if o.uuid ≠ some "" then o.uuid
  else if o.handle ≠ some "" then o.handle
  else none

/-- DSpaceObject.add_statistic_report over a list of keyed reports; the source
wraps a single dict into a one-element list and returns unchanged on None,
both subsumed by the list form. -/
def DSpaceObject.add_statistic_report (o : DSpaceObject)
    (reports : List (List (String × RVal))) : DSpaceObject :=
  { o with statistic_reports :=
      (reports.foldl (fun st r => r.foldl (fun st2 kv => mergeReportKey st2 kv.1 kv.2) st)
        o.statistic_reports) }

/-- A typed relation to another item, as constructed by Relation(relation_type,
identifier) in Item.add_relation; the Relation class itself is not part of
src/, its two constructor arguments are taken from that call site. -/
structure Relation where
  relation_type : String
  identifier : String
deriving DecidableEq, Repr

/-- Modelled from the spec: the Collection class is not part of src/; per the
spec a Collection is a repository entity, and here only its identity as a
value matters. -/
structure Collection where
  uuid : Option String := none
  handle : Option String := none
deriving DecidableEq, Repr

/-- The three runtime shapes the collections argument of Item.__init__ can
take: None (the default), a single Collection, or a list of Collections. -/
inductive CollectionsArg where
  | nonePassed
  | single (c : Collection)
  | listOf (cs : List Collection)

/-- The guard written type[collections] is Collection in Item.__init__ (line
25): subscription of the builtin type creates a types.GenericAlias object,
which is never identical to the class Collection, so the guard evaluates to
False for every argument. -/
def typeSubscriptIsCollection (_arg : CollectionsArg) : Bool :=
  false

/-- Whether the class DSpaceObject carries a class-level attribute named
metadata: its class body contains only type hints and methods, and a type
hint does not create a class attribute, so it does not. Item.is_entity reads
super().metadata, and super() resolves attributes through the class
dictionaries of the remaining method resolution order, never through the
instance dictionary, so that read raises AttributeError. -/
def dspaceObjectClassHasMetadataAttr : Bool :=
  false

/-- The state of an Item (Item.py). relations and contents are only type
hints in the class body and are never assigned by __init__, so a fresh Item
has no such attributes: none models the unset attribute. The contents list is
omitted, as no verified operation reads it. -/
structure Item where
  dso : DSpaceObject
  collections : List Collection
  relations : Option (List Relation)

/-- Item.__init__ (lines 14 to 25): super().__init__(uuid, handle) with the
name defaulting to the empty string, then the collections expression
collections if type(collections) is list else ([collections] if
type[collections] is Collection else []). The then-branch of the inner
conditional is unreachable because the guard is constantly false; for the
single case it is rendered faithfully, for None the wrapped list [None] has
no representation and the branch collapses to the empty list. -/
def Item.init (uuid handle : Option String) (collections : CollectionsArg) : Item :=
  { dso := DSpaceObject.init uuid handle (some ""),
    collections :=
      match collections with
      | .listOf cs => cs
      | .single c => if typeSubscriptIsCollection (.single c) then [c] else []
      | .nonePassed => if typeSubscriptIsCollection .nonePassed then [] else [],
    relations := none }

/-- Item.is_entity (lines 27 to 33): returns whether
super().metadata.get( dspace.entity.type ) is not None, but the read of
super().metadata raises AttributeError because the attribute lives only in
the instance dictionary. -/
def Item.is_entity (it : Item) : Except PyErr Bool :=
  if dspaceObjectClassHasMetadataAttr then
    .ok ((MetaData.get it.dso.metadata "dspace.entity.type").isSome)
  else
    .error .attributeError

/-- Item.add_relation (lines 47 to 57): raises TypeError when is_entity is
false, propagates the AttributeError is_entity itself raises, and appends a
Relation to self.relations; when that attribute was never assigned the append
raises AttributeError as well. -/
def Item.add_relation (it : Item) (relation_type identifier : String) :
    Except PyErr Item :=
  match it.is_entity with
  | .error e => .error e
  | .ok e =>
      if !e then .error .typeError
      else
        match it.relations with
        | none => .error .attributeError
        | some rs =>
            .ok { it with relations := some (rs ++ [{ relation_type := relation_type, identifier := identifier }]) }

/-- The state of a Bundle (models.py lines 265 to 296). The bitstream list is
omitted: the Python back-reference from Bitstream to Bundle would make the
containment cyclic, and no verified operation reads the list. -/
structure Bundle where
  dso : DSpaceObject

/-- The name attribute a Bundle inherits from DSpaceObject. -/
def Bundle.name (bu : Bundle) : Option String :=
  bu.dso.name

/-- Python str.strip with no argument: removes leading and trailing
whitespace, modelled on the code-point list of the string. -/
def pyStrip (s : String) : String :=
  ⟨((s.data.dropWhile Char.isWhitespace).reverse.dropWhile Char.isWhitespace).reverse⟩

/-- The Python condition len(s) > 0 and s[-1] != c: false on the empty
string, otherwise whether the last code point differs from c. -/
def pyLastCharDiffers (s : String) (c : Char) : Bool :=
  match s.data.getLast? with
  | none => false
  | some d => d != c

/-- Bundle.__init__ (lines 275 to 296) without the bitstreams argument:
raises AttributeError when the stripped name is empty and no uuid is given,
then super().__init__(uuid, empty handle, name) and the two conditional
metadata additions. -/
def Bundle.init (name description : String) (uuid : Option String) :
    Except PyErr Bundle :=
  if pyStrip name = "" ∧ uuid = none then .error .attributeError
  else
    let base := DSpaceObject.init uuid (some "") (some name)
    let base := if description ≠ "" then base.add_metadata "dc.description" description none else base
    let base := if name ≠ "" then base.add_metadata "dc.title" name none else base
    .ok { dso := base }

/-- One entry of the permissions list of a Bitstream: the dict with keys type
and group appended by add_permission. -/
structure Permission where
  ptype : String
  group : String
deriving DecidableEq, Repr

/-- The state of a Bitstream (models.py lines 10 to 53). The show attribute
is only a type hint and never assigned, hence omitted. -/
structure Bitstream where
  dso : DSpaceObject
  file_name : String
  path : String
  permissions : List Permission
  bundle : Option Bundle
  primary : Bool
  size_bytes : Option Int := none
  check_sum : Option String := none

/-- Bitstream.__init__ (lines 31 to 53): stores the fields, appends a slash
to a non-empty path not already ending in one, calls super().__init__(uuid,
empty handle, name) and adds dc.title when the name is non-empty. -/
def Bitstream.init (name path : String) (bundle : Option Bundle)
    (uuid : Option String) (primary : Bool) : Bitstream :=
  let path2 := if pyLastCharDiffers path '/' then path ++ "/" else path
  let dso := DSpaceObject.init uuid (some "") (some name)
  let dso := if name ≠ "" then dso.add_metadata "dc.title" name none else dso
  { dso := dso, file_name := name, path := path2, permissions := [],
    bundle := bundle, primary := primary }

/-- Metadata addition on a bitstream, delegated to the inherited
DSpaceObject.add_metadata. -/
def Bitstream.add_metadata (b : Bitstream) (tag value : String) : Bitstream :=
  { b with dso := b.dso.add_metadata tag value none }

/-- Bitstream.get_description: the first dc.description value. -/
def Bitstream.get_description (b : Bitstream) : Option String :=
  b.dso.get_first_metadata_value "dc.description"

/-- Bitstream.add_permission (lines 88 to 97): raises ValueError unless the
kind is r or w, then appends the permission dict. -/
def Bitstream.add_permission (b : Bitstream) (rw group_name : String) :
    Except PyErr Bitstream :=
  if rw ≠ "r" ∧ rw ≠ "w" then .error .valueError
  else .ok { b with permissions := b.permissions ++ [{ ptype := rw, group := group_name }] }

/-- How a Python f-string renders a str attribute that may be None. -/
def pyStrOfOpt (s : Option String) : String :=
  s.getD "None"

/-- Bitstream.__str__ (lines 55 to 71): the SAF content-description line,
built from the file name, the optional bundle name, the optional description,
the permission entries in insertion order and the primary flag. -/
def Bitstream.str (b : Bitstream) : String :=
  let e := b.file_name
  let e := match b.bundle with
    | some bu => e ++ "\tbundle:" ++ pyStrOfOpt bu.name
    | none => e
  let e := match b.get_description with
    | some d => e ++ "\tdescription:" ++ d
    | none => e
  let e := e ++ String.join (b.permissions.map
    (fun p => "\tpermissions:-" ++ p.ptype ++ " \x27" ++ p.group ++ "\x27"))
  if b.primary then e ++ "\tprimary:true" else e

/-- Bitstream.save_bitstream (lines 110 to 124) with the filesystem passed
explicitly: dirListing is the list of names os.listdir returns for the
destination, fetched the outcome of get_bitstream_file (the external
ByteSource collaborator). The existence check precedes the fetch and the
write; writing appends the name to the listing. -/
def Bitstream.save_bitstream (b : Bitstream) (dirListing : List String)
    (fetched : Except PyErr String) : Except PyErr (List String) :=
  if b.file_name ∈ dirListing then .error .fileExistsError
  else
    match fetched with
    | .error e => .error e
    | .ok _ => .ok (dirListing ++ [b.file_name])

/-- Bitstream.get_identifier (lines 145 to 150): returns the uuid
unconditionally. -/
def Bitstream.get_identifier (b : Bitstream) : Option String :=
  b.dso.uuid

namespace IIIFBitstream

/-- The integer downscale factor int(width / w) computed by add_iiif: int
truncates the float quotient toward zero, which for the nonnegative exact
quotients evaluated below coincides with natural division. -/
def iiifScale (width w : ℕ) : ℕ :=
  width / w

/-- IIIFBitstream.add_iiif (models.py lines 223 to 240) with the external
image collaborator passed explicitly: size is the natural (width, height)
pair PIL reports for the current bytes. When w is non-zero and strictly below
the natural width the source computes scale = int(width / w) and then
executes super().file = img.reduce(scale).tobytes(); attribute assignment
through the super() proxy raises AttributeError, so that branch fails before
any metadata is recorded. Otherwise the four iiif metadata values are added
with the natural dimensions. -/
def add_iiif (b : Bitstream) (label toc : String) (w : ℕ) (size : ℕ × ℕ) :
    Except PyErr Bitstream :=
  if w ≠ 0 ∧ w < size.1 then
    .error .attributeError
  else
    .ok ((((b.add_metadata "iiif.label" label).add_metadata "iiif.toc" toc).add_metadata
      "iiif.image.width" (toString size.1)).add_metadata "iiif.image.height" (toString size.2))

end IIIFBitstream

/-- A DSpaceObject holding the given raw values under one tag, built by
repeated add_metadata calls. -/
def objWithValues (tag : String) (vals : List String) : DSpaceObject :=
  vals.foldl (fun o v => o.add_metadata tag v none) (DSpaceObject.init none none none)

/-- A fresh Item carrying a dspace.entity.type metadata value, added through
the inherited metadata store as add_metadata would. -/
def sampleEntityItem : Item :=
  let it := Item.init (some "0000") (some "") .nonePassed
  { it with dso := it.dso.add_metadata "dspace.entity.type" "Publication" none }

/-- A plain bitstream for the IIIF scenario. -/
def sampleScan : Bitstream :=
  Bitstream.init "scan.jpg" "/files" none none false

/-- An object whose statistics mapping already holds one structured report
under the key views, reached by one add_statistic_report call. -/
def objStats : DSpaceObject :=
  (DSpaceObject.init none none none).add_statistic_report [[("views", RVal.dict [])]]

/-- A bitstream with an empty-string uuid whose handle attribute was assigned
after construction, as Python allows; the constructor itself always sets the
handle to the empty string. -/
def bitstreamWithHandle : Bitstream :=
  let b := Bitstream.init "doc.pdf" "" none (some "") false
  { b with dso := { b.dso with handle := some "123/9" } }

theorem except_map_eq_error {ε α β : Type} (g : α → β) (x : Except ε α) (e : ε) :
    x.map g = .error e ↔ x = .error e := by
  cases x <;> simp [Except.map]

theorem alookup_aset_self (k : String) (v : RVal) (s : List (String × RVal)) :
    alookup k (aset k v s) = some v := by
  induction s with
  | nil => simp [aset, alookup]
  | cons hd tl ih =>
    obtain ⟨k2, w⟩ := hd
    by_cases h : k2 = k
    · simp [aset, alookup, h]
    · simp [aset, alookup, h, ih]

theorem aset_of_lookup_none (k : String) (v : RVal) (s : List (String × RVal))
    (h : alookup k s = none) : aset k v s = s ++ [(k, v)] := by
  induction s with
  | nil => simp [aset]
  | cons hd tl ih =>
    obtain ⟨k2, w⟩ := hd
    by_cases hk : k2 = k
    · simp [alookup, hk] at h
    · simp only [aset, if_neg hk, List.cons_append, List.cons.injEq, true_and]
      exact ih (by simpa [alookup, hk] using h)

theorem moveList_pos_iff (md : List MetaDataValue) (f t : ℤ) :
    moveList md f t = .error .positionOutOfRange ↔
      (md.length = 0 ∨ (md.length : ℤ) ≤ f) := by
  unfold moveList
  by_cases h1 : md.length = 0 ∨ (md.length : ℤ) ≤ f
  · rw [if_pos h1]
    exact iff_of_true rfl h1
  · rw [if_neg h1]
    refine iff_of_false (fun hcontra => ?_) h1
    by_cases h2 : (md.length : ℤ) ≤ t ∨ t ≤ -(md.length : ℤ)
    · rw [if_pos h2] at hcontra
      exact absurd hcontra (by simp)
    · rw [if_neg h2] at hcontra
      cases hp : pyPop md f with
      | none => simp [hp] at hcontra
      | some p =>
          obtain ⟨value, rest⟩ := p
          simp [hp] at hcontra

theorem moveList_target_iff (md : List MetaDataValue) (f t : ℤ)
    (hn : ¬(md.length = 0 ∨ (md.length : ℤ) ≤ f)) :
    moveList md f t = .error .invalidTargetPosition ↔
      ((md.length : ℤ) ≤ t ∨ t ≤ -(md.length : ℤ)) := by
  unfold moveList
  rw [if_neg hn]
  by_cases h2 : (md.length : ℤ) ≤ t ∨ t ≤ -(md.length : ℤ)
  · rw [if_pos h2]
    exact iff_of_true rfl h2
  · rw [if_neg h2]
    refine iff_of_false (fun hcontra => ?_) h2
    cases hp : pyPop md f with
    | none => simp [hp] at hcontra
    | some p =>
        obtain ⟨value, rest⟩ := p
        simp [hp] at hcontra

/-- C1: the claim says move with toIndex equal to minus one makes the moved
value the last element and that the docstring of move_metadata promises the
same; on the field values a, b, c, moving index 0 to minus one instead yields
b, a, c, inserting the moved value immediately before the last element, so
the last element is c and not the moved a. -/
theorem move_metadata_toIndex_neg_one_keeps_moved_value_before_last :
    ((objWithValues "dc.contributor.author" ["a", "b", "c"]).move_metadata
        "dc.contributor.author" 0 (-1)).map
        (fun o => o.get_metadata "dc.contributor.author") =
      .ok [{ value := "b" }, { value := "a" }, { value := "c" }] ∧
    ((objWithValues "dc.contributor.author" ["a", "b", "c"]).move_metadata
        "dc.contributor.author" 0 (-1)).map
        (fun o => (o.get_metadata "dc.contributor.author").getLast?) =
      .ok (some { value := "c" }) := by
  exact ⟨rfl, rfl⟩

/-- C2 counterexample: the claim says toIndex equal to minus the length is a
valid target position that does not fail; on a field of length two, moving
index 0 to minus two raises the target-position IndexError. -/
theorem move_metadata_rejects_toIndex_neg_length :
    (objWithValues "dc.title" ["a", "b"]).move_metadata "dc.title" 0 (-2) =
      .error .invalidTargetPosition := by
  rfl

/-- C2 (amended): move fails with PositionOutOfRange exactly when fromIndex
is at least the sequence length or the field has zero values; when that check
passes, it fails with InvalidTargetPosition exactly when toIndex is at least
the length or at most minus the length, so toIndex equal to minus the length
is rejected. -/
theorem move_metadata_error_conditions (o : DSpaceObject) (tag : String) (f t : ℤ) :
    (o.move_metadata tag f t = .error .positionOutOfRange ↔
      ((o.get_metadata tag).length = 0 ∨ ((o.get_metadata tag).length : ℤ) ≤ f)) ∧
    (¬((o.get_metadata tag).length = 0 ∨ ((o.get_metadata tag).length : ℤ) ≤ f) →
      (o.move_metadata tag f t = .error .invalidTargetPosition ↔
        (((o.get_metadata tag).length : ℤ) ≤ t ∨
          t ≤ -((o.get_metadata tag).length : ℤ)))) := by
  simp only [DSpaceObject.move_metadata, except_map_eq_error]
  exact ⟨moveList_pos_iff (o.get_metadata tag) f t,
    fun hn => moveList_target_iff (o.get_metadata tag) f t hn⟩

theorem move_metadata_error_conditions_witness :
    (objWithValues "dc.title" ["a", "b"]).move_metadata "dc.title" 0 5 =
      .error .invalidTargetPosition := by
  have h := move_metadata_error_conditions (objWithValues "dc.title" ["a", "b"])
    "dc.title" 0 5
  exact (h.2 (by decide)).mpr (by decide)

/-- C3: the claim says add_relation succeeds and appends once the
dspace.entity.type field is present and non-empty; on a fresh Item carrying
exactly that field the call still raises AttributeError, because is_entity
reads super().metadata, which super() cannot resolve, and because __init__
never assigns self.relations. -/
theorem add_relation_raises_attribute_error :
    sampleEntityItem.add_relation "isPartOfJournal" "123/456" =
      .error .attributeError ∧
    sampleEntityItem.is_entity = .error .attributeError := by
  exact ⟨rfl, rfl⟩

/-- C4 counterexample: the claim says a pair where one side has an identifier
and the other has neither uuid nor handle fails fast; the code instead
returns False for such a pair. -/
theorem eq_one_sided_identifier_returns_false :
    DSpaceObject.eq (DSpaceObject.init (some "u") (some "") none)
      (DSpaceObject.init (some "") (some "") none) = .ok false := by
  rfl

/-- C4 (amended): equality raises ValueError exactly when uuid and handle are
the empty string on both sides; every other pair yields a boolean. -/
theorem eq_raises_iff_both_sides_fully_empty (a b : DSpaceObject) :
    (DSpaceObject.eq a b = .error .valueError ↔
      (a.uuid = some "" ∧ b.uuid = some "" ∧ a.handle = some "" ∧ b.handle = some "")) ∧
    (¬(a.uuid = some "" ∧ b.uuid = some "" ∧ a.handle = some "" ∧ b.handle = some "") →
      ∃ r, DSpaceObject.eq a b = .ok r) := by
  by_cases h : a.uuid = some "" ∧ b.uuid = some "" ∧ a.handle = some "" ∧ b.handle = some ""
  · refine ⟨?_, ?_⟩
    · simp [DSpaceObject.eq, h]
    · intro hn
      exact absurd h hn
  · refine ⟨?_, ?_⟩
    · simp [DSpaceObject.eq, h]
    · intro _
      refine ⟨(if a.uuid ≠ some "" then decide (a.uuid = b.uuid)
        else decide (a.handle = b.handle)), ?_⟩
      unfold DSpaceObject.eq
      rw [if_neg h]

theorem eq_raises_iff_both_sides_fully_empty_witness :
    DSpaceObject.eq (DSpaceObject.init (some "") (some "") none)
        (DSpaceObject.init (some "") (some "") none) = .error .valueError ∧
    DSpaceObject.eq (DSpaceObject.init (some "u") (some "") none)
        (DSpaceObject.init (some "u") (some "") none) = .ok true := by
  have h := eq_raises_iff_both_sides_fully_empty
    (DSpaceObject.init (some "") (some "") none)
    (DSpaceObject.init (some "") (some "") none)
  exact ⟨h.1.mpr ⟨rfl, rfl, rfl, rfl⟩, rfl⟩

/-- C5: the claim says add_iiif on a natural size of 4000 by 3000 with target
width 1000 computes the downscale factor 4 and records the natural
dimensions; the source does compute int(4000 / 1000) = 4, but the downscale
branch then assigns through super().file, which raises AttributeError before
any metadata is recorded. -/
theorem add_iiif_downscale_branch_raises :
    IIIFBitstream.add_iiif sampleScan "Page 1" "" 1000 (4000, 3000) =
      .error .attributeError ∧
    IIIFBitstream.iiifScale 4000 1000 = 4 := by
  exact ⟨rfl, rfl⟩

/-- C6: for a ContentFile named scan.jpg in a Bundle named ORIGINAL with the
primary flag set, one read permission for the group Anonymous and no
description, the SAF description line is exactly the tab-separated string of
the claim. -/
theorem describe_line_saf_scenario :
    ((Bundle.init "ORIGINAL" "" none).bind (fun bu =>
        (Bitstream.init "scan.jpg" "/files" (some bu) none true).add_permission
          "r" "Anonymous")).map Bitstream.str =
      .ok "scan.jpg\tbundle:ORIGINAL\tpermissions:-r \x27Anonymous\x27\tprimary:true" := by
  rfl

/-- C7: when the file name is not yet present at the destination, the first
save_bitstream call succeeds and records the file, and a second call to the
same destination with the same name fails with the FileExistsError, for every
outcome of the byte fetch, so nothing is written: the existence check
precedes both the fetch and the write. -/
theorem save_bitstream_check_then_write (b : Bitstream) (d : List String) (s : String)
    (h : b.file_name ∉ d) :
    b.save_bitstream d (.ok s) = .ok (d ++ [b.file_name]) ∧
    (∀ fetched, b.save_bitstream (d ++ [b.file_name]) fetched =
      .error .fileExistsError) := by
  refine ⟨?_, ?_⟩
  · simp [Bitstream.save_bitstream, h]
  · intro fetched
    simp [Bitstream.save_bitstream]

theorem save_bitstream_check_then_write_witness :
    sampleScan.save_bitstream [] (.ok "bytes") = .ok ["scan.jpg"] ∧
    sampleScan.save_bitstream ["scan.jpg"] (.ok "bytes") =
      .error .fileExistsError := by
  have h := save_bitstream_check_then_write sampleScan [] "bytes" (by simp)
  exact ⟨h.1, h.2 (.ok "bytes")⟩

/-- C8: one merge step of add_statistic_report, over an arbitrary prior
statistics mapping: a new key is inserted as-is at the end; a colliding key
whose existing and incoming values are both structured reports becomes the
two-element sequence of both in arrival order; a colliding key already
holding a sequence is extended at the end by an incoming structured report;
and a colliding key with a non-structured incoming value is overwritten. -/
theorem add_statistic_report_merge_rules (o : DSpaceObject) (k : String) (v : RVal) :
    (alookup k o.statistic_reports = none →
      (o.add_statistic_report [[(k, v)]]).statistic_reports =
        o.statistic_reports ++ [(k, v)]) ∧
    (∀ old, alookup k o.statistic_reports = some old → old.isDict = true →
      v.isDict = true →
      alookup k (o.add_statistic_report [[(k, v)]]).statistic_reports =
        some (.arr [old, v])) ∧
    (∀ l, alookup k o.statistic_reports = some (.arr l) → v.isDict = true →
      alookup k (o.add_statistic_report [[(k, v)]]).statistic_reports =
        some (.arr (l ++ [v]))) ∧
    (∀ old, alookup k o.statistic_reports = some old → v.isDict = false →
      alookup k (o.add_statistic_report [[(k, v)]]).statistic_reports = some v) := by
  have hred : (o.add_statistic_report [[(k, v)]]).statistic_reports =
      mergeReportKey o.statistic_reports k v := rfl
  refine ⟨?_, ?_, ?_, ?_⟩
  · intro hn
    rw [hred]
    unfold mergeReportKey
    rw [hn]
    exact aset_of_lookup_none k v _ hn
  · intro old hold hd hvd
    rw [hred]
    unfold mergeReportKey
    rw [hold]
    have hacc : RVal.accumulate old v = .arr [old, v] := by
      cases old <;> simp_all [RVal.accumulate, RVal.isDict]
    simp [hvd, hacc, alookup_aset_self]
  · intro l hold hvd
    rw [hred]
    unfold mergeReportKey
    rw [hold]
    simp [hvd, RVal.accumulate, alookup_aset_self]
  · intro old hold hvd
    rw [hred]
    unfold mergeReportKey
    rw [hold]
    simp [hvd, alookup_aset_self]

theorem add_statistic_report_merge_rules_witness :
    alookup "views"
        (objStats.add_statistic_report
          [[("views", RVal.dict [("m", RVal.scalar "1")])]]).statistic_reports =
      some (RVal.arr [RVal.dict [], RVal.dict [("m", RVal.scalar "1")]]) := by
  have h := add_statistic_report_merge_rules objStats "views"
    (RVal.dict [("m", RVal.scalar "1")])
  exact h.2.1 (RVal.dict []) rfl rfl rfl

/-- C9: passing a single Collection directly as the collections argument of
the Item constructor yields an empty collections sequence, because the guard
type[collections] is Collection is constantly false; only a list argument
populates the sequence. -/
theorem item_init_single_collection_dropped (u h : Option String) (c : Collection)
    (cs : List Collection) :
    (Item.init u h (.single c)).collections = [] ∧
    (Item.init u h (.listOf cs)).collections = cs := by
  exact ⟨rfl, rfl⟩

/-- C10: a Bitstream resolves its identifier to the uuid unconditionally,
never falling back to the handle, whereas the base DSpaceObject falls back to
a handle that differs from the empty string whenever the uuid equals the
empty string. -/
theorem bitstream_get_identifier_ignores_handle (b : Bitstream) :
    b.get_identifier = b.dso.uuid ∧
    (b.dso.uuid = some "" → b.dso.handle ≠ some "" →
      b.dso.get_identifier = b.dso.handle) := by
  refine ⟨rfl, fun h1 h2 => ?_⟩
  simp [DSpaceObject.get_identifier, h1, h2]

theorem bitstream_get_identifier_ignores_handle_witness :
    bitstreamWithHandle.get_identifier = some "" ∧
    bitstreamWithHandle.dso.get_identifier = some "123/9" := by
  have h := bitstream_get_identifier_ignores_handle bitstreamWithHandle
  exact ⟨h.1.trans rfl, (h.2 rfl (by decide)).trans rfl⟩

end Dspyce
